import Mathlib

/-!
Verification of the Crimson interpreter (src/Crimson.cpp) against its
natural-language specification.

The development is a shallow embedding of the C++ source: each C++ function
is translated into a Lean function of the same name over an explicit
interpreter state.  Machine loops are written as fuel-indexed structural
recursions (the fuel is always supplied generously at call sites; running
out of fuel returns the state unchanged, and no theorem below depends on
fuel exhaustion).  C++ exceptions thrown by std::stod / std::stoi are
modelled by an error-carrying result type `RunRes`; all other paths of the
source are total.
-/

namespace Crimson

/-- Token types of the lexer (enum TokenType in the source). -/
inductive TokenType where
  | IDENTIFIER
  | NUMBER
  | STRING
  | KEYWORD
  | OPERATOR
  | DELIMITER
  | COMMENT
  | END_OF_FILE
deriving DecidableEq, Repr

/-- Data types (enum DataType in the source). -/
inductive DataType where
  | INT_TYPE
  | FLOAT_TYPE
  | BOOL_TYPE
  | STRING_TYPE
  | VOID_TYPE
deriving DecidableEq, Repr

/-- Token structure (struct Token in the source). -/
structure Token where
  type : TokenType
  value : String
  line : Nat
  column : Nat
deriving DecidableEq, Repr

/-- Variable structure (struct Variable in the source). -/
structure Variable where
  type : DataType
  value : String
deriving DecidableEq, Repr

/-- Function structure (struct Function in the source).  The two-argument
C++ constructor `Function(rt, params)` leaves `body` default-constructed,
i.e. the empty vector. -/
structure Function where
  returnType : DataType
  parameters : List String
  body : List Token
deriving DecidableEq, Repr

/-- The keyword set of the scanner (field `keywords` in the source). -/
def keywordSet : List String :=
  ["int", "float", "bool", "string", "void", "if", "else", "switch",
   "main", "include", "true", "false", "else if"]

/-- Models std::isspace in the C locale on ASCII input. -/
def isSpaceChar (c : Char) : Bool :=
  c == ' ' || c == '\t' || c == '\n' || c == '\x0b' || c == '\x0c' || c == '\r'

/-- Models std::isdigit. -/
def isDigitChar (c : Char) : Bool :=
  decide ('0' ≤ c ∧ c ≤ '9')

/-- Models std::isalpha in the C locale on ASCII input. -/
def isAlphaChar (c : Char) : Bool :=
  decide (('A' ≤ c ∧ c ≤ 'Z') ∨ ('a' ≤ c ∧ c ≤ 'z'))

/-- Models std::isalnum in the C locale on ASCII input. -/
def isAlnumChar (c : Char) : Bool :=
  isAlphaChar c || isDigitChar c

/-- The two-character operators recognized greedily by the scanner. -/
def twoCharOp (c d : Char) : Bool :=
  (c == '=' && d == '=') || (c == '!' && d == '=') || (c == '<' && d == '=') ||
  (c == '>' && d == '=') || (c == '&' && d == '&') || (c == '|' && d == '|')

/-- Single-character operator characters of the scanner. -/
def isOpChar (c : Char) : Bool :=
  c == '+' || c == '-' || c == '*' || c == '/' || c == '=' || c == '!' ||
  c == '<' || c == '>' || c == '&' || c == '|'

/-- Delimiter characters of the scanner. -/
def isDelimChar (c : Char) : Bool :=
  c == '(' || c == ')' || c == '\x7b' || c == '\x7d' || c == ';' || c == ','

/-- Scans the inside of a double-quoted string: consumes characters up to
(but not including) the closing quote, skipping backslash-escaped pairs,
exactly as the while-loop in `tokenize` does.  Returns the scanned
characters and the rest of the line (beginning with the closing quote when
one was found). -/
def scanStrAux : Nat → List Char → List Char → List Char × List Char
  | 0, cs, acc => (acc, cs)
  | _ + 1, [], acc => (acc, [])
  | f + 1, c :: cs, acc =>
    if c == '"' then (acc, c :: cs)
    else if c == '\\' then
      match cs with
      | d :: cs2 => scanStrAux f cs2 (acc ++ [c, d])
      | [] => scanStrAux f [] (acc ++ [c])
    else scanStrAux f cs (acc ++ [c])

/-- One line of the scanner loop of `tokenize` (the body of the inner
`while (pos < line.length())`), with the position kept as `pos` and the
remaining characters of the line as `cs`. -/
def scanLineAux (fuel : Nat) (ln : Nat) (pos : Nat) (cs : List Char)
    (acc : List Token) : List Token :=
  match fuel with
  | 0 => acc
  | fuel + 1 =>
    let ws := cs.takeWhile isSpaceChar
    let pos := pos + ws.length
    match cs.dropWhile isSpaceChar with
    | [] => acc
    | c :: rest =>
      if c == '/' && (match rest with | d :: _ => d == '/' | [] => false) then
        acc ++ [⟨.COMMENT, ⟨c :: rest⟩, ln, pos⟩]
      else if c == '#' then
        acc ++ [⟨.KEYWORD, ⟨c :: rest⟩, ln, pos⟩]
      else if c == '"' then
        let p := scanStrAux (rest.length + 1) rest []
        match p.2 with
        | q :: rest3 =>
          scanLineAux fuel ln (pos + 2 + p.1.length) rest3
            (acc ++ [⟨.STRING, ⟨c :: (p.1 ++ [q])⟩, ln, pos⟩])
        | [] =>
          scanLineAux fuel ln (pos + 1 + p.1.length) []
            (acc ++ [⟨.STRING, ⟨c :: p.1⟩, ln, pos⟩])
      else if isDigitChar c || c == '.' then
        let ds := (c :: rest).takeWhile fun x => isDigitChar x || x == '.'
        scanLineAux fuel ln (pos + ds.length)
          ((c :: rest).dropWhile fun x => isDigitChar x || x == '.')
          (acc ++ [⟨.NUMBER, ⟨ds⟩, ln, pos⟩])
      else if isAlphaChar c || c == '_' then
        let ws2 := (c :: rest).takeWhile fun x => isAlnumChar x || x == '_'
        let word : String := ⟨ws2⟩
        let ty : TokenType :=
          if word ∈ keywordSet then .KEYWORD else .IDENTIFIER
        scanLineAux fuel ln (pos + ws2.length)
          ((c :: rest).dropWhile fun x => isAlnumChar x || x == '_')
          (acc ++ [⟨ty, word, ln, pos⟩])
      else if isOpChar c then
        match rest with
        | d :: rest2 =>
          if twoCharOp c d then
            scanLineAux fuel ln (pos + 2) rest2
              (acc ++ [⟨.OPERATOR, ⟨[c, d]⟩, ln, pos⟩])
          else
            scanLineAux fuel ln (pos + 1) rest
              (acc ++ [⟨.OPERATOR, ⟨[c]⟩, ln, pos⟩])
        | [] =>
          scanLineAux fuel ln (pos + 1) []
            (acc ++ [⟨.OPERATOR, ⟨[c]⟩, ln, pos⟩])
      else if isDelimChar c then
        scanLineAux fuel ln (pos + 1) rest
          (acc ++ [⟨.DELIMITER, ⟨[c]⟩, ln, pos⟩])
      else
        scanLineAux fuel ln (pos + 1) rest acc

/-- Splits raw source text into lines the way the `std::getline` loop of
`tokenize` does: lines are terminated by a newline or by the end of input,
and a trailing newline does not produce an extra empty line. -/
def splitNlAux : List Char → List Char → List (List Char)
  | cur, [] => [cur.reverse]
  | cur, c :: rest =>
    if c == '\n' then
      cur.reverse :: (match rest with | [] => [] | _ :: _ => splitNlAux [] rest)
    else splitNlAux (c :: cur) rest

/-- The lines `std::getline` yields from the source text (none for empty
input). -/
def getLines (s : String) : List String :=
  match s.data with
  | [] => []
  | cs => (splitNlAux [] cs).map fun l => ⟨l⟩

/-- Tokenizes each line in turn, with line numbers starting at 1. -/
def tokenizeLines : List String → Nat → List Token
  | [], _ => []
  | l :: rest, ln => scanLineAux (l.length + 1) ln 0 l.data [] ++ tokenizeLines rest (ln + 1)

/-- The lexer (`CrimsonInterpreter::tokenize`): scans line by line and
appends a terminal end-of-input token whose line number is one past the
last source line. -/
def tokenize (code : String) : List Token :=
  let ls := getLines code
  tokenizeLines ls 1 ++ [⟨.END_OF_FILE, "", ls.length + 1, 0⟩]

/-- Runtime errors: the uncaught C++ exceptions std::stod and std::stoi
throw on non-numeric input.  Nothing in the source catches them, so they
terminate the process abnormally (non-zero exit status). -/
inductive RError where
  | stodErr
  | stoiErr
deriving DecidableEq, Repr

/-- The mutable state of one `CrimsonInterpreter` instance: the two symbol
tables, the token sequence, the cursor, and the observable environment
(writes to the output stream, writes to the error stream, remaining input
lines, and performed Sleep durations). -/
structure InterpState where
  /-- the C++ field `variables` (that spelling is a reserved word in Lean) -/
  vars : List (String × Variable)
  functions : List (String × Function)
  tokens : List Token
  currentToken : Nat
  out : List String
  errOut : List String
  stdinLines : List String
  sleeps : List Int
deriving DecidableEq, Repr

/-- Result of an interpreter step: normal completion or an uncaught
exception, in both cases with the state reached (partially produced output
is not rolled back). -/
inductive RunRes (α : Type) where
  | ok (a : α) (s : InterpState)
  | err (e : RError) (s : InterpState)
deriving DecidableEq, Repr

/-- The state a step ended in, whether it completed or threw. -/
def stateOf : RunRes α → InterpState
  | .ok _ s => s
  | .err _ s => s

/-- Output-stream writes of a finished run. -/
def outOf (r : RunRes Unit) : List String := (stateOf r).out

/-- Error-stream writes of a finished run. -/
def errOf (r : RunRes Unit) : List String := (stateOf r).errOut

/-- The uncaught exception of a run, if it threw one. -/
def errCodeOf : RunRes Unit → Option RError
  | .ok _ _ => none
  | .err e _ => some e

/-- True when the process exits with status 0: `main` returns 0 whenever
`runFile` returns normally; an uncaught exception terminates the process
abnormally with a non-zero status. -/
def exitsWithZero : RunRes Unit → Bool
  | .ok _ _ => true
  | .err _ _ => false

/-- Association-list lookup modelling std::map::find. -/
def lookupAssoc : List (String × β) → String → Option β
  | [], _ => none
  | (k, v) :: rest, n => if k = n then some v else lookupAssoc rest n

/-- Association-list insert-or-assign modelling `map[key] = value`. -/
def insertAssoc : List (String × β) → String → β → List (String × β)
  | [], k, v => [(k, v)]
  | (k1, v1) :: rest, k, v =>
    if k1 = k then (k, v) :: rest else (k1, v1) :: insertAssoc rest k v

/-- Placeholder used by `curTok` for an out-of-range index; every access in
the source is bounds-guarded, so it is never observable. -/
def dummyTok : Token := ⟨.END_OF_FILE, "", 0, 0⟩

/-- The token under the cursor (`tokens[currentToken]`). -/
def curTok (s : InterpState) : Token := s.tokens.getD s.currentToken dummyTok

/-- Advances the cursor by one token (`currentToken++`). -/
def advance (s : InterpState) : InterpState :=
  { s with currentToken := s.currentToken + 1 }

/-- Exact decimal value `num / 10 ^ dexp`, the result of parsing numeric
text.  The source compares C++ doubles; the model compares the exact
decimal values (doc of `stod?`). -/
structure Dec where
  num : Int
  dexp : Nat
deriving DecidableEq, Repr

/-- Value of a digit string. -/
def digitsVal (ds : List Char) : Nat :=
  ds.foldl (fun a c => a * 10 + (c.toNat - '0'.toNat)) 0

/-- Models std::stod: skip leading whitespace, optional sign, digits with
at most one decimal point; at least one digit must be consumed or the call
throws (`none`).  Trailing non-numeric text is ignored, as strtod parses a
prefix.  Hexadecimal, exponent, infinity and NaN spellings — none of which
can reach a comparison from the token texts of this tokenizer — and
out-of-range behavior are not modelled.  The parsed value is kept exactly;
the source rounds to double, which agrees on all comparisons of values
distinguishable in double precision. -/
def stod? (s : String) : Option Dec :=
  let cs := s.data.dropWhile isSpaceChar
  let p : Bool × List Char :=
    match cs with
    | '-' :: r => (true, r)
    | '+' :: r => (false, r)
    | _ => (false, cs)
  let d1 := p.2.takeWhile isDigitChar
  let cs1 := p.2.dropWhile isDigitChar
  let d2 : List Char :=
    match cs1 with
    | '.' :: r => r.takeWhile isDigitChar
    | _ => []
  if d1 = [] ∧ d2 = [] then none
  else
    let mag : Int := Int.ofNat (digitsVal (d1 ++ d2))
    some ⟨if p.1 then -mag else mag, d2.length⟩

/-- Models std::stoi (base 10): skip leading whitespace, optional sign,
then decimal digits; throws (`none`) if no digit is consumed.  Trailing
text is ignored; out-of-range behavior is not modelled. -/
def stoi? (s : String) : Option Int :=
  let cs := s.data.dropWhile isSpaceChar
  let p : Bool × List Char :=
    match cs with
    | '-' :: r => (true, r)
    | '+' :: r => (false, r)
    | _ => (false, cs)
  let ds := p.2.takeWhile isDigitChar
  if ds = [] then none
  else some (if p.1 then -(digitsVal ds : Int) else (digitsVal ds : Int))

/-- Comparison of two exact decimals by cross-multiplication: `a < b`. -/
def decLt (a b : Dec) : Bool :=
  decide (a.num * 10 ^ b.dexp < b.num * 10 ^ a.dexp)

/-- Comparison of two exact decimals: `a > b`. -/
def decGt (a b : Dec) : Bool :=
  decide (a.num * 10 ^ b.dexp > b.num * 10 ^ a.dexp)

/-- Comparison of two exact decimals: `a ≤ b`. -/
def decLe (a b : Dec) : Bool :=
  decide (a.num * 10 ^ b.dexp ≤ b.num * 10 ^ a.dexp)

/-- Comparison of two exact decimals: `a ≥ b`. -/
def decGe (a b : Dec) : Bool :=
  decide (a.num * 10 ^ b.dexp ≥ b.num * 10 ^ a.dexp)

/-- `CrimsonInterpreter::getDataType`. -/
def getDataType (t : String) : DataType :=
  if t = "int" then .INT_TYPE
  else if t = "float" then .FLOAT_TYPE
  else if t = "bool" then .BOOL_TYPE
  else if t = "string" then .STRING_TYPE
  else .VOID_TYPE

/-- `CrimsonInterpreter::evaluateBooleanValue`. -/
def evaluateBooleanValue (value : String) : Bool :=
  if value = "true" then true
  else if value = "false" then false
  else if value = "0" then false
  else if value = "" then false
  else true

/-- `CrimsonInterpreter::evaluateComparison`: `==` and `!=` compare the
operand texts verbatim; the four ordering operators call std::stod on both
operands (throwing on non-numeric text) and compare the parsed values; any
other operator text yields false. -/
def evaluateComparison (left op right : String) : Except RError Bool :=
  match op with
  | "==" => .ok (left == right)
  | "!=" => .ok (left != right)
  | "<" =>
    match stod? left, stod? right with
    | some a, some b => .ok (decLt a b)
    | _, _ => .error .stodErr
  | ">" =>
    match stod? left, stod? right with
    | some a, some b => .ok (decGt a b)
    | _, _ => .error .stodErr
  | "<=" =>
    match stod? left, stod? right with
    | some a, some b => .ok (decLe a b)
    | _, _ => .error .stodErr
  | ">=" =>
    match stod? left, stod? right with
    | some a, some b => .ok (decGe a b)
    | _, _ => .error .stodErr
  | _ => .ok false

/-- Resolution of an identifier in `parseExpression`: the stored value of
a bound variable, or the identifier text itself when unbound. -/
def resolveVar (s : InterpState) (n : String) : String :=
  match lookupAssoc s.vars n with
  | some v => v.value
  | none => n

/-- `CrimsonInterpreter::parseExpression`: returns, in priority order, the
text of a string literal, of a number literal, of a variable (resolved, or
its own name when unbound), or of the keyword literals true/false, each
consuming one token; for every other token kind it returns empty text
without consuming anything.  It never fails. -/
def parseExpression (s : InterpState) : String × InterpState :=
  if s.tokens.length ≤ s.currentToken then ("", s)
  else
    let t := curTok s
    if t.type = .STRING then (t.value, advance s)
    else if t.type = .NUMBER then (t.value, advance s)
    else if t.type = .IDENTIFIER then (resolveVar s t.value, advance s)
    else if t.type = .KEYWORD ∧ (t.value = "true" ∨ t.value = "false") then
      (t.value, advance s)
    else ("", s)

/-- `CrimsonInterpreter::evaluateCondition`. -/
def evaluateCondition (s : InterpState) : RunRes Bool :=
  if s.tokens.length ≤ s.currentToken then .ok false s
  else
    let p := parseExpression s
    let left := p.1
    let s1 := p.2
    if s1.tokens.length ≤ s1.currentToken then .ok false s1
    else
      let q : String × InterpState :=
        if (curTok s1).type = .OPERATOR then ((curTok s1).value, advance s1)
        else ("", s1)
      if q.1 = "" then .ok (evaluateBooleanValue left) q.2
      else
        let r := parseExpression q.2
        match evaluateComparison left q.1 r.1 with
        | .ok b => .ok b r.2
        | .error e => .err e r.2

/-- Quote stripping performed by `crym` and `inp` before writing. -/
def stripQuotes (m : String) : String :=
  let cs := m.data
  if 2 ≤ cs.length ∧ cs.head? = some '"' ∧ cs.getLast? = some '"' then
    ⟨(cs.drop 1).dropLast⟩
  else m

/-- `CrimsonInterpreter::executeFunction`: the three intrinsics, the
diagnostic marker for a declared function, and the silent fall-through for
an unknown name. -/
def executeFunction (funcName : String) (args : List String) (s : InterpState) :
    RunRes Unit :=
  if funcName = "crym" then
    if args = [] then .ok () s
    else .ok () { s with out := s.out ++ [stripQuotes (args.headD "")] }
  else if funcName = "inp" then
    if args = [] then .ok () s
    else .ok () { s with out := s.out ++ [stripQuotes (args.headD "")],
                         stdinLines := s.stdinLines.tail }
  else if funcName = "Sleep" then
    if args = [] then .ok () s
    else
      match stoi? (args.headD "") with
      | some n => .ok () { s with sleeps := s.sleeps ++ [n] }
      | none => .err .stoiErr s
  else
    match lookupAssoc s.functions funcName with
    | some _ => .ok () { s with out := s.out ++ ["Executing function: " ++ funcName] }
    | none => .ok () s

/-- The argument-collection loop of `parseStatement`. -/
def argsLoop (fuel : Nat) (acc : List String) (s : InterpState) :
    List String × InterpState :=
  match fuel with
  | 0 => (acc, s)
  | fuel + 1 =>
    if s.currentToken < s.tokens.length ∧ (curTok s).value ≠ ")" then
      let t := curTok s
      if t.type = .STRING ∨ t.type = .NUMBER then
        argsLoop fuel (acc ++ [t.value]) (advance s)
      else if t.type = .IDENTIFIER then
        match lookupAssoc s.vars t.value with
        | some v => argsLoop fuel (acc ++ [v.value]) (advance s)
        | none => argsLoop fuel (acc ++ [t.value]) (advance s)
      else if t.value = "," then argsLoop fuel acc (advance s)
      else argsLoop fuel acc (advance s)
    else (acc, s)

/-- `CrimsonInterpreter::parseStatement`: an identifier followed by a
parenthesized argument list is dispatched to `executeFunction`; a trailing
semicolon is consumed when present. -/
def parseStatement (fuel : Nat) (s : InterpState) : RunRes Unit :=
  if s.currentToken < s.tokens.length ∧ (curTok s).type = .IDENTIFIER then
    let identifier := (curTok s).value
    let s1 := advance s
    if s1.currentToken < s1.tokens.length ∧ (curTok s1).value = "(" then
      let p := argsLoop fuel [] (advance s1)
      let s3 := p.2
      let s4 :=
        if s3.currentToken < s3.tokens.length ∧ (curTok s3).value = ")" then advance s3
        else s3
      match executeFunction identifier p.1 s4 with
      | .err e s5 => .err e s5
      | .ok _ s5 =>
        .ok () (if s5.currentToken < s5.tokens.length ∧ (curTok s5).value = ";" then
                  advance s5
                else s5)
    else .ok () s1
  else .ok () s

/-- Type-specific default values of `parseVariableDeclaration` (the
`default:` case leaves the C++ string default-constructed, i.e. empty). -/
def defaultValueFor : DataType → String
  | .INT_TYPE => "0"
  | .FLOAT_TYPE => "0.0"
  | .BOOL_TYPE => "false"
  | .STRING_TYPE => ""
  | .VOID_TYPE => ""

/-- `CrimsonInterpreter::parseVariableDeclaration`. -/
def parseVariableDeclaration (s : InterpState) : InterpState :=
  let ty := getDataType (curTok s).value
  let s1 := advance s
  if s1.currentToken < s1.tokens.length ∧ (curTok s1).type = .IDENTIFIER then
    let varName := (curTok s1).value
    let s2 := advance s1
    let s4 : InterpState :=
      if s2.currentToken < s2.tokens.length ∧ (curTok s2).value = "=" then
        let p := parseExpression (advance s2)
        { p.2 with vars := insertAssoc p.2.vars varName ⟨ty, p.1⟩ }
      else
        { s2 with vars := insertAssoc s2.vars varName ⟨ty, defaultValueFor ty⟩ }
    if s4.currentToken < s4.tokens.length ∧ (curTok s4).value = ";" then advance s4
    else s4
  else s1

/-- The parameter-collection loop of `parseFunctionDeclaration`. -/
def paramsLoop (fuel : Nat) (acc : List String) (s : InterpState) :
    List String × InterpState :=
  match fuel with
  | 0 => (acc, s)
  | fuel + 1 =>
    if s.currentToken < s.tokens.length ∧ (curTok s).value ≠ ")" then
      if (curTok s).type = .IDENTIFIER then
        paramsLoop fuel (acc ++ [(curTok s).value]) (advance s)
      else paramsLoop fuel acc (advance s)
    else (acc, s)

/-- The body-capture loop of `parseFunctionDeclaration`: collects the
brace-delimited body tokens into a local vector by brace-depth counting,
stopping (without consuming) at the matching closing brace. -/
def bodyLoop (fuel : Nat) (braceCount : Int) (acc : List Token) (s : InterpState) :
    List Token × InterpState :=
  match fuel with
  | 0 => (acc, s)
  | fuel + 1 =>
    if s.currentToken < s.tokens.length ∧ 0 < braceCount then
      let t := curTok s
      let bc : Int :=
        if t.value = "\x7b" then braceCount + 1
        else if t.value = "\x7d" then braceCount - 1
        else braceCount
      if 0 < bc then bodyLoop fuel bc (acc ++ [t]) (advance s)
      else (acc, s)
    else (acc, s)

/-- `CrimsonInterpreter::parseFunctionDeclaration`: consumes `void`, the
name, the parameter list and the brace-delimited body.  The body tokens
are collected into a local vector, but the entry stored in the function
table is `Function(VOID_TYPE, parameters)`, whose body is the empty
vector; the collected tokens are discarded. -/
def parseFunctionDeclaration (fuel : Nat) (s : InterpState) : InterpState :=
  let s1 := advance s
  if s1.currentToken < s1.tokens.length ∧ (curTok s1).type = .IDENTIFIER then
    let funcName := (curTok s1).value
    let s2 := advance s1
    if s2.currentToken < s2.tokens.length ∧ (curTok s2).value = "(" then
      let p := paramsLoop fuel [] (advance s2)
      let s3 := p.2
      let s4 :=
        if s3.currentToken < s3.tokens.length ∧ (curTok s3).value = ")" then advance s3
        else s3
      if s4.currentToken < s4.tokens.length ∧ (curTok s4).value = "\x7b" then
        let q := bodyLoop fuel 1 [] (advance s4)
        let s5 := q.2
        let s6 :=
          if s5.currentToken < s5.tokens.length ∧ (curTok s5).value = "\x7d" then advance s5
          else s5
        { s6 with functions := insertAssoc s6.functions funcName ⟨.VOID_TYPE, p.1, []⟩ }
      else s4
    else s2
  else s1

/-- `CrimsonInterpreter::skipBlock`: skips past the current block by
brace-depth counting, consuming the matching closing brace. -/
def skipBlock (fuel : Nat) (braceCount : Int) (s : InterpState) : InterpState :=
  match fuel with
  | 0 => s
  | fuel + 1 =>
    if s.currentToken < s.tokens.length ∧ 0 < braceCount then
      let t := curTok s
      let bc : Int :=
        if t.value = "\x7b" then braceCount + 1
        else if t.value = "\x7d" then braceCount - 1
        else braceCount
      skipBlock fuel bc (advance s)
    else s

/-- After the loop of `parseBlock`: consume the closing brace when present. -/
def closeBraceSkip (s : InterpState) : InterpState :=
  if s.currentToken < s.tokens.length ∧ (curTok s).value = "\x7d" then advance s
  else s

mutual

/-- `CrimsonInterpreter::parseIfStatement`: evaluates the condition,
executes or skips the first block, then scans the else/else-if chain. -/
def parseIfStatement (fuel : Nat) (s : InterpState) : RunRes Unit :=
  match fuel with
  | 0 => .ok () s
  | fuel + 1 =>
    let s1 := advance s
    if s1.currentToken < s1.tokens.length ∧ (curTok s1).value = "(" then
      match evaluateCondition (advance s1) with
      | .err e t => .err e t
      | .ok condition s2 =>
        if s2.currentToken < s2.tokens.length ∧ (curTok s2).value = ")" then
          let s3 := advance s2
          if s3.currentToken < s3.tokens.length ∧ (curTok s3).value = "\x7b" then
            let s4 := advance s3
            if condition then
              match parseBlock fuel 1 s4 with
              | .err e t => .err e t
              | .ok _ s5 => elseChain fuel true s5
            else
              elseChain fuel false (skipBlock fuel 1 s4)
          else .ok () s3
        else .ok () s2
    else .ok () s1

/-- The `while`-loop over `else` of `parseIfStatement`.  Note that an
else-if condition is evaluated by `evaluateCondition` unconditionally;
only the choice between executing and skipping its block consults
`executed`. -/
def elseChain (fuel : Nat) (executed : Bool) (s : InterpState) : RunRes Unit :=
  match fuel with
  | 0 => .ok () s
  | fuel + 1 =>
    if s.currentToken < s.tokens.length ∧ (curTok s).type = .KEYWORD ∧
        (curTok s).value = "else" then
      let s1 := advance s
      if s1.currentToken < s1.tokens.length ∧ (curTok s1).value = "if" then
        let s2 := advance s1
        if s2.currentToken < s2.tokens.length ∧ (curTok s2).value = "(" then
          match evaluateCondition (advance s2) with
          | .err e t => .err e t
          | .ok elseIfCondition s3 =>
            if s3.currentToken < s3.tokens.length ∧ (curTok s3).value = ")" then
              let s4 := advance s3
              if s4.currentToken < s4.tokens.length ∧ (curTok s4).value = "\x7b" then
                let s5 := advance s4
                if !executed && elseIfCondition then
                  match parseBlock fuel 1 s5 with
                  | .err e t => .err e t
                  | .ok _ s6 => elseChain fuel true s6
                else
                  elseChain fuel executed (skipBlock fuel 1 s5)
              else elseChain fuel executed s4
            else elseChain fuel executed s3
        else elseChain fuel executed s2
      else if s1.currentToken < s1.tokens.length ∧ (curTok s1).value = "\x7b" then
        if !executed then parseBlock fuel 1 (advance s1)
        else .ok () (skipBlock fuel 1 (advance s1))
      else elseChain fuel executed s1
    else .ok () s

/-- `CrimsonInterpreter::parseBlock`: executes the statements of a block
by brace-depth counting, then consumes the closing brace. -/
def parseBlock (fuel : Nat) (braceCount : Int) (s : InterpState) : RunRes Unit :=
  match fuel with
  | 0 => .ok () s
  | fuel + 1 =>
    if s.currentToken < s.tokens.length ∧ 0 < braceCount then
      let t := curTok s
      let bc : Int :=
        if t.value = "\x7b" then braceCount + 1
        else if t.value = "\x7d" then braceCount - 1
        else braceCount
      if 0 < bc then
        let step : RunRes Unit :=
          if t.type = .KEYWORD then
            if t.value = "int" ∨ t.value = "float" ∨ t.value = "bool" ∨
                t.value = "string" then
              .ok () (parseVariableDeclaration s)
            else if t.value = "void" then .ok () (parseFunctionDeclaration fuel s)
            else if t.value = "if" then parseIfStatement fuel s
            else .ok () (advance s)
          else if t.type = .IDENTIFIER then parseStatement fuel s
          else .ok () (advance s)
        match step with
        | .err e u => .err e u
        | .ok _ u => parseBlock fuel bc u
      else .ok () (closeBraceSkip s)
    else .ok () (closeBraceSkip s)

end

/-- The value of the token after the head, used for the one-token
lookaheads guarded by `i + 1 < tokens.size()`. -/
def headVal (rest : List Token) : Option String :=
  rest.head?.map fun t => t.value

/-- The first-pass scan of `parseAndExecute` locating the first
`(void|int)` keyword immediately followed by a token of value `main`. -/
def findMainAux : List Token → Nat → Option Nat
  | t :: t2 :: rest, i =>
    if t.type = .KEYWORD ∧ (t.value = "void" ∨ t.value = "int") ∧ t2.value = "main"
    then some i
    else findMainAux (t2 :: rest) (i + 1)
  | _, _ => none

/-- Index `mainStart` of the main function, if any. -/
def findMain (toks : List Token) : Option Nat := findMainAux toks 0

/-- The boundary scan of `parseAndExecute`: from `mainStart`, arm on the
`main (` pair, then track brace depth; returns the index of the matching
closing brace, or the sentinel 0 (the initial value of `mainEnd`) when the
depth never returns to zero. -/
def findMainEndAux : List Token → Nat → Bool → Int → Nat
  | [], _, _, _ => 0
  | t :: rest, i, inMain, bc =>
    if t.value = "main" ∧ headVal rest = some "(" then
      findMainEndAux rest (i + 1) true bc
    else if inMain then
      if t.value = "\x7b" then findMainEndAux rest (i + 1) inMain (bc + 1)
      else if t.value = "\x7d" then
        if bc - 1 = 0 then i else findMainEndAux rest (i + 1) inMain (bc - 1)
      else findMainEndAux rest (i + 1) inMain bc
    else findMainEndAux rest (i + 1) inMain bc

/-- Index `mainEnd` of the closing brace of main (sentinel 0 when absent). -/
def findMainEnd (toks : List Token) (mainStart : Nat) : Nat :=
  findMainEndAux (toks.drop mainStart) mainStart false 0

/-- The validator scan of `parseAndExecute`: the first identifier token
named `crym`, `Sleep` or `inp` whose index lies outside
`[mainStart, mainEnd]`, if any. -/
def findOutsideAux : List Token → Nat → Nat → Nat → Option Token
  | [], _, _, _ => none
  | t :: rest, i, mainStart, mainEnd =>
    if (i < mainStart ∨ mainEnd < i) ∧ t.type = .IDENTIFIER ∧
        (t.value = "crym" ∨ t.value = "Sleep" ∨ t.value = "inp") then some t
    else findOutsideAux rest (i + 1) mainStart mainEnd

/-- First intrinsic-name identifier outside the main block, if any. -/
def findOutsideIntrinsic (toks : List Token) (mainStart mainEnd : Nat) : Option Token :=
  findOutsideAux toks 0 mainStart mainEnd

/-- Diagnostic for a missing main function. -/
def noMainMsg : String :=
  "Error: No main function found. Code must be inside void main() or int main() to execute."

/-- Diagnostic for an unterminated main block. -/
def notClosedMsg : String :=
  "Error: Main function not properly closed with \x7d"

/-- Diagnostic for an intrinsic call outside the main block. -/
def outsideMsg (line : Nat) : String :=
  "Error: Line " ++ toString line ++
    ": Code outside main function is not allowed. All executable code must be inside main()."

/-- The `CrimsonInterpreter::parseInclude` helper loop collecting the
library name up to the next delimiter. -/
def includeNameLoop (fuel : Nat) (acc : String) (s : InterpState) :
    String × InterpState :=
  match fuel with
  | 0 => (acc, s)
  | fuel + 1 =>
    if s.currentToken < s.tokens.length ∧ (curTok s).type ≠ .DELIMITER then
      includeNameLoop fuel (acc ++ (curTok s).value) (advance s)
    else (acc, s)

/-- `CrimsonInterpreter::parseInclude`: skips the directive token, then —
only when the next token is a Delimiter of value `<` — collects the
library name and prints the inclusion notice. -/
def parseInclude (fuel : Nat) (s : InterpState) : InterpState :=
  let s1 := advance s
  if s1.currentToken < s1.tokens.length ∧ (curTok s1).type = .DELIMITER ∧
      (curTok s1).value = "<" then
    let p := includeNameLoop fuel "" (advance s1)
    let s3 :=
      if p.2.currentToken < p.2.tokens.length ∧ (curTok p.2).value = ">" then advance p.2
      else p.2
    { s3 with out := s3.out ++ ["Including library: " ++ p.1] }
  else s1

/-- The statement-dispatch loop of `parseAndExecute` (its final `while`),
running from `mainStart` while the cursor is in bounds, at most `mainEnd`,
and not at the end-of-input token. -/
def execLoop (fuel : Nat) (mainEnd : Nat) (s : InterpState) : RunRes Unit :=
  match fuel with
  | 0 => .ok () s
  | fuel + 1 =>
    if s.currentToken < s.tokens.length ∧ s.currentToken ≤ mainEnd ∧
        (curTok s).type ≠ .END_OF_FILE then
      let t := curTok s
      let step : RunRes Unit :=
        if t.type = .COMMENT then .ok () (advance s)
        else if t.type = .KEYWORD ∧ t.value = "#include" then
          .ok () (parseInclude fuel s)
        else if t.type = .KEYWORD ∧ (t.value = "int" ∨ t.value = "float" ∨
            t.value = "bool" ∨ t.value = "string") then
          .ok () (parseVariableDeclaration s)
        else if t.type = .KEYWORD ∧ t.value = "void" then
          .ok () (parseFunctionDeclaration fuel s)
        else if t.type = .KEYWORD ∧ t.value = "if" then parseIfStatement fuel s
        else if t.type = .IDENTIFIER then parseStatement fuel s
        else .ok () (advance s)
      match step with
      | .err e u => .err e u
      | .ok _ u => execLoop fuel mainEnd u
    else .ok () s

/-- `CrimsonInterpreter::parseAndExecute`: stores the token sequence,
locates main, validates its boundaries and the absence of intrinsics
outside it (each failure printing a diagnostic to the error stream and
returning), then executes the statements of the main block. -/
def parseAndExecute (fuel : Nat) (toks : List Token) (s0 : InterpState) : RunRes Unit :=
  let s : InterpState := { s0 with tokens := toks, currentToken := 0 }
  match findMain toks with
  | none => .ok () { s with errOut := s.errOut ++ [noMainMsg] }
  | some mainStart =>
    let mainEnd := findMainEnd toks mainStart
    if mainEnd = 0 then .ok () { s with errOut := s.errOut ++ [notClosedMsg] }
    else
      match findOutsideIntrinsic toks mainStart mainEnd with
      | some t => .ok () { s with errOut := s.errOut ++ [outsideMsg t.line] }
      | none => execLoop fuel mainEnd { s with currentToken := mainStart }

/-- The interpreter state at construction time: empty tables, no tokens,
cursor 0, and an empty observable environment. -/
def initState : InterpState := ⟨[], [], [], 0, [], [], [], []⟩

/-- `CrimsonInterpreter::runFile` after the file has been read: tokenize
the source text and parse-and-execute it on a fresh interpreter. -/
def runFileContents (fuel : Nat) (code : String) : RunRes Unit :=
  parseAndExecute fuel (tokenize code) initState

/-- The suffix of the filename after its last dot, as computed by
`filename.substr(filename.find_last_of(".") + 1)` in `main`: when the
filename has no dot, `find_last_of` returns `npos` and `npos + 1` wraps
around to 0, so the whole filename is taken. -/
def afterLastDot (cs : List Char) : List Char :=
  (cs.reverse.takeWhile fun c => c != '.').reverse

/-- String form of `afterLastDot`. -/
def extAfterLastDot (s : String) : String := ⟨afterLastDot s.data⟩

/-- Outcome of the command-line entry point `main`. -/
inductive CliOutcome where
  /-- wrong argument count: usage message, exit 1 -/
  | usageError
  /-- extension check failed: error message, exit 1 -/
  | extensionError
  /-- `runFile` could not open the path: error message, then `main` returns 0 -/
  | cannotOpen (filename : String)
  /-- the interpreter ran on the contents of the file -/
  | ran (r : RunRes Unit)
deriving DecidableEq, Repr

/-- The command-line entry point `main` of the source, with the process
argument list (beyond the program name) and the readable files abstracted
as `readSource`. -/
def crimsonMain (fuel : Nat) (args : List String)
    (readSource : String → Option String) : CliOutcome :=
  match args with
  | [filename] =>
    if extAfterLastDot filename ≠ "crm" then CliOutcome.extensionError
    else
      match readSource filename with
      | none => CliOutcome.cannotOpen filename
      | some code => CliOutcome.ran (runFileContents fuel code)
  | _ => CliOutcome.usageError

/-- Process exit status of an outcome: `some n` for a normal exit with
status `n` (the C++ `main` returns 0 whenever `runFile` returns), `none`
for the abnormal non-zero termination caused by an uncaught exception. -/
def cliExitCode : CliOutcome → Option Nat
  | .usageError => some 1
  | .extensionError => some 1
  | .cannotOpen _ => some 0
  | .ran (.ok _ _) => some 0
  | .ran (.err _ _) => none

/-- Error-stream writes of an outcome that ran the interpreter. -/
def cliErrOut : CliOutcome → List String
  | .ran r => errOf r
  | _ => []

/-- The if/else-if/else test program of the specification (section 8):
the first condition is false, the second true. -/
def chainProg1 : String :=
  "void main ( ) \x7b\nif (1 > 2) \x7b crym(\"A\"); \x7d else if (1 < 2) \x7b crym(\"B\"); \x7d else \x7b crym(\"C\"); \x7d\n\x7d"

/-- A chain in which no condition is true and there is no unconditional
else, followed by a further statement. -/
def chainProg2 : String :=
  "void main ( ) \x7b\nif (1 > 2) \x7b crym(\"A\"); \x7d else if (2 > 3) \x7b crym(\"B\"); \x7d\ncrym(\"done\");\n\x7d"

/-- A chain whose unconditional else branch is the one that executes. -/
def chainProg3 : String :=
  "void main ( ) \x7b\nif (1 > 2) \x7b crym(\"A\"); \x7d else \x7b crym(\"C\"); \x7d\n\x7d"

/-- A chain whose first branch executes and whose later else-if condition
contains an ordering comparison on a non-numeric operand (the unbound
identifier `oops` resolves to its own name). -/
def c1BadProg : String :=
  "void main ( ) \x7b\nif (1 < 2) \x7b crym(\"A\"); \x7d else if (oops < 1) \x7b crym(\"B\"); \x7d\n\x7d"

/-- A program with no main function. -/
def c2NoMainProg : String := "int x ;"

/-- A program whose main block is never closed. -/
def c2UnclosedProg : String := "void main ( ) \x7b\ncrym ( \"hi\" ) ;"

/-- A program whose condition compares the non-numeric text `y` with an
ordering operator. -/
def c2CmpProg : String :=
  "void main ( ) \x7b\nif (y < 1) \x7b crym(\"A\"); \x7d\n\x7d"

/-- A program calling Sleep on non-numeric text. -/
def c2SleepProg : String :=
  "void main ( ) \x7b\nSleep ( x ) ;\n\x7d"

/-- A program with an include directive inside main, followed by output. -/
def c3Prog : String :=
  "void main ( ) \x7b\n#include <io>\ncrym ( \"x\" ) ;\n\x7d"

/-- A program with an intrinsic call placed before a well-formed main. -/
def c4Prog : String :=
  "crym ( \"x\" ) ;\nvoid main ( ) \x7b \x7d"

/-- The comparison-text test program of the specification (section 8). -/
def c6Prog : String :=
  "void main ( ) \x7b\nif (\"1.0\" == \"1\") \x7b crym(\"eq\"); \x7d else \x7b crym(\"neq\"); \x7d\n\x7d"

/-- A state whose cursor rests on an operator token: not a value token,
and not at the end of input. -/
def s7 : InterpState :=
  { initState with tokens := [⟨.OPERATOR, "<", 1, 0⟩, ⟨.END_OF_FILE, "", 1, 1⟩] }

/-- A state whose token sequence is a single void-function declaration
with a nonempty body (11 declaration tokens and the end-of-input token). -/
def s8 : InterpState :=
  { initState with tokens := tokenize "void f ( ) \x7b crym ( \"hello\" ) ; \x7d" }

/-- A program declaring a function with a printing body inside main and
then invoking it. -/
def c8Prog : String :=
  "void main ( ) \x7b\nvoid f ( ) \x7b crym ( \"hello\" ) ; \x7d\nf ( ) ;\n\x7d"

/-- A program calling an undeclared, non-intrinsic name and continuing. -/
def c10Prog : String :=
  "void main ( ) \x7b\nfoo ( 1 ) ;\ncrym ( \"after\" ) ;\n\x7d"

/-- States `t` and `s` agree on every field except the cursor: the
observable environment, both symbol tables and the token sequence of `t`
are those of `s`. -/
def agreesExceptCursor (s t : InterpState) : Prop :=
  t.vars = s.vars ∧ t.functions = s.functions ∧ t.tokens = s.tokens ∧
  t.out = s.out ∧ t.errOut = s.errOut ∧ t.stdinLines = s.stdinLines ∧
  t.sleeps = s.sleeps

@[simp] theorem stateOf_ok (a : α) (s : InterpState) : stateOf (.ok a s) = s := rfl

@[simp] theorem stateOf_err (e : RError) (s : InterpState) :
    stateOf (RunRes.err (α := α) e s) = s := rfl

theorem aec_refl (s : InterpState) : agreesExceptCursor s s := by
  simp [agreesExceptCursor]

theorem aec_trans {s t u : InterpState} (h1 : agreesExceptCursor s t)
    (h2 : agreesExceptCursor t u) : agreesExceptCursor s u := by
  obtain ⟨a1, b1, c1, d1, e1, f1, g1⟩ := h1
  obtain ⟨a2, b2, c2, d2, e2, f2, g2⟩ := h2
  exact ⟨a2.trans a1, b2.trans b1, c2.trans c1, d2.trans d1, e2.trans e1,
         f2.trans f1, g2.trans g1⟩

theorem aec_advance (s : InterpState) : agreesExceptCursor s (advance s) := by
  simp [agreesExceptCursor, advance]

theorem aec_parseExpression (s : InterpState) :
    agreesExceptCursor s (parseExpression s).2 := by
  unfold parseExpression
  dsimp only
  split_ifs <;> exact aec_refl s

theorem aec_evaluateCondition (s : InterpState) :
    agreesExceptCursor s (stateOf (evaluateCondition s)) := by
  unfold evaluateCondition
  dsimp only
  split_ifs with h1 h2 h3 h4 <;>
    try exact aec_parseExpression s
  all_goals try exact aec_refl s
  all_goals try simp_all
  all_goals (
    cases evaluateComparison (parseExpression s).1 (curTok (parseExpression s).2).value
        (parseExpression (advance (parseExpression s).2)).1 <;>
      simp only [stateOf_ok, stateOf_err] <;>
      exact aec_trans (aec_parseExpression s)
        (aec_trans (aec_advance _) (aec_parseExpression _)))

theorem aec_skipBlock (fuel : Nat) (bc : Int) (s : InterpState) :
    agreesExceptCursor s (skipBlock fuel bc s) := by
  induction fuel generalizing bc s with
  | zero => exact aec_refl s
  | succ fuel ih =>
    rw [skipBlock]
    split_ifs with h
    · exact aec_trans (aec_advance s) (ih _ _)
    · exact aec_refl s


theorem aec_elseChain_true (fuel : Nat) : ∀ s : InterpState,
    agreesExceptCursor s (stateOf (elseChain fuel true s)) := by
  induction fuel with
  | zero => intro s; exact aec_refl s
  | succ fuel ih =>
    intro s
    rw [elseChain]
    simp only [Bool.not_true, Bool.false_and, Bool.false_eq_true, if_false]

    split_ifs with h1 h2 h3 h4 <;>
      first
      | exact aec_refl s
      | exact aec_trans (aec_advance s) (ih _)
      | exact aec_trans (aec_advance s) (aec_trans (aec_advance _) (ih _))
      | exact aec_trans (aec_advance s) (aec_trans (aec_advance _)
          (aec_skipBlock fuel 1 _))
      | (cases hec : evaluateCondition (advance (advance (advance s))) with
         | err e t =>
           have ha := aec_evaluateCondition (advance (advance (advance s)))
           rw [hec] at ha
           exact aec_trans (aec_advance s) (aec_trans (aec_advance _)
             (aec_trans (aec_advance _) ha))
         | ok b s3 =>
           have ha := aec_evaluateCondition (advance (advance (advance s)))
           rw [hec] at ha
           simp only [stateOf_ok] at ha
           have hbase : agreesExceptCursor s s3 :=
             aec_trans (aec_advance s) (aec_trans (aec_advance _)
               (aec_trans (aec_advance _) ha))
           dsimp only
           split_ifs with h5 h6 <;>
             first
             | exact aec_trans hbase (ih _)
             | exact aec_trans hbase (aec_trans (aec_advance _) (ih _))
             | exact aec_trans hbase (aec_trans (aec_advance _)
                 (aec_trans (aec_advance _)
                   (aec_trans (aec_skipBlock fuel 1 _) (ih _)))))

theorem lookupAssoc_insertAssoc (l : List (String × β)) (k : String) (v : β)
    (n : String) :
    lookupAssoc (insertAssoc l k v) n = if k = n then some v else lookupAssoc l n := by
  induction l with
  | nil => simp [insertAssoc, lookupAssoc]
  | cons hd tl ih =>
    obtain ⟨k1, v1⟩ := hd
    by_cases h1 : k1 = k
    · subst h1
      by_cases h2 : k1 = n <;> simp [insertAssoc, lookupAssoc, h2]
    · by_cases h2 : k1 = n
      · subst h2
        have h3 : ¬ k = k1 := fun h => h1 h.symm
        simp [insertAssoc, lookupAssoc, h1, h3]
      · simp [insertAssoc, lookupAssoc, h1, h2, ih]

theorem aec_paramsLoop (fuel : Nat) (acc : List String) (s : InterpState) :
    agreesExceptCursor s (paramsLoop fuel acc s).2 := by
  induction fuel generalizing acc s with
  | zero => exact aec_refl s
  | succ fuel ih =>
    rw [paramsLoop]
    split_ifs <;>
      first
      | exact aec_refl s
      | exact aec_trans (aec_advance s) (ih _ _)

theorem aec_bodyLoop (fuel : Nat) (bc : Int) (acc : List Token) (s : InterpState) :
    agreesExceptCursor s (bodyLoop fuel bc acc s).2 := by
  induction fuel generalizing bc acc s with
  | zero => exact aec_refl s
  | succ fuel ih =>
    rw [bodyLoop]
    dsimp only
    split_ifs <;>
      first
      | exact aec_refl s
      | exact aec_trans (aec_advance s) (ih _ _ _)


theorem pfd_plain {s t : InterpState} (h : agreesExceptCursor s t) :
    t.vars = s.vars ∧ t.out = s.out ∧
    (t.functions = s.functions ∨ ∃ nm ps, t.functions =
      insertAssoc s.functions nm ⟨.VOID_TYPE, ps, []⟩) :=
  ⟨h.1, h.2.2.2.1, Or.inl h.2.1⟩

theorem pfd_close {s t : InterpState} (h : agreesExceptCursor s t)
    (nm : String) (ps : List String) :
    ({ t with functions := insertAssoc t.functions nm ⟨.VOID_TYPE, ps, []⟩ } :
        InterpState).vars = s.vars ∧
    ({ t with functions := insertAssoc t.functions nm ⟨.VOID_TYPE, ps, []⟩ } :
        InterpState).out = s.out ∧
    (({ t with functions := insertAssoc t.functions nm ⟨.VOID_TYPE, ps, []⟩ } :
        InterpState).functions = s.functions ∨
      ∃ nm2 ps2,
        ({ t with functions := insertAssoc t.functions nm ⟨.VOID_TYPE, ps, []⟩ } :
          InterpState).functions = insertAssoc s.functions nm2 ⟨.VOID_TYPE, ps2, []⟩) :=
  ⟨h.1, h.2.2.2.1, Or.inr ⟨nm, ps, by rw [h.2.1]⟩⟩

theorem parseFunctionDeclaration_spec (fuel : Nat) (s : InterpState) :
    (parseFunctionDeclaration fuel s).vars = s.vars ∧
    (parseFunctionDeclaration fuel s).out = s.out ∧
    ((parseFunctionDeclaration fuel s).functions = s.functions ∨
      ∃ nm ps, (parseFunctionDeclaration fuel s).functions =
        insertAssoc s.functions nm ⟨.VOID_TYPE, ps, []⟩) := by
  unfold parseFunctionDeclaration
  dsimp only
  split_ifs <;>
    first
    | exact pfd_plain (aec_advance s)
    | exact pfd_plain (aec_trans (aec_advance s) (aec_advance _))
    | exact pfd_plain (aec_trans (aec_advance s) (aec_trans (aec_advance _)
        (aec_trans (aec_advance _) (aec_paramsLoop _ _ _))))
    | exact pfd_plain (aec_trans (aec_advance s) (aec_trans (aec_advance _)
        (aec_trans (aec_advance _) (aec_trans (aec_paramsLoop _ _ _)
          (aec_advance _)))))
    | exact pfd_close (aec_trans (aec_advance s) (aec_trans (aec_advance _)
        (aec_trans (aec_advance _) (aec_trans (aec_paramsLoop _ _ _)
          (aec_trans (aec_advance _) (aec_trans (aec_advance _)
            (aec_trans (aec_bodyLoop _ _ _ _) (aec_advance _)))))))) _ _
    | exact pfd_close (aec_trans (aec_advance s) (aec_trans (aec_advance _)
        (aec_trans (aec_advance _) (aec_trans (aec_paramsLoop _ _ _)
          (aec_trans (aec_advance _) (aec_trans (aec_advance _)
            (aec_bodyLoop _ _ _ _))))))) _ _
    | exact pfd_close (aec_trans (aec_advance s) (aec_trans (aec_advance _)
        (aec_trans (aec_advance _) (aec_trans (aec_paramsLoop _ _ _)
          (aec_trans (aec_advance _)
            (aec_trans (aec_bodyLoop _ _ _ _) (aec_advance _))))))) _ _
    | exact pfd_close (aec_trans (aec_advance s) (aec_trans (aec_advance _)
        (aec_trans (aec_advance _) (aec_trans (aec_paramsLoop _ _ _)
          (aec_trans (aec_advance _) (aec_bodyLoop _ _ _ _)))))) _ _


/-- A program whose condition uses an ordering comparison with a
non-numeric left operand. -/
def c5BadProg : String :=
  "void main ( ) \x7b\nif (oops <= 1) \x7b crym(\"A\"); \x7d\n\x7d"

/-- C4 (confirmed): if any intrinsic-name identifier (crym, inp, Sleep)
occurs at a token index outside [mainStart, mainEnd], the run fails
before any statement executes: the only state change is the diagnostic
naming the source line of the offending token appended to the error stream —
in particular no program output is produced — and this holds even when
the main block itself is well-formed. -/
theorem c4_outside_main_rejected (fuel : Nat) (toks : List Token)
    (s : InterpState) (i : Nat) (t : Token)
    (h1 : findMain toks = some i)
    (h2 : findMainEnd toks i ≠ 0)
    (h3 : findOutsideIntrinsic toks i (findMainEnd toks i) = some t) :
    parseAndExecute fuel toks s =
      .ok () { s with tokens := toks, currentToken := 0,
                      errOut := s.errOut ++ [outsideMsg t.line] } := by
  unfold parseAndExecute
  rw [h1]
  dsimp only
  rw [if_neg h2, h3]

/-- Witness for C4 at a concrete program: `crym("x");` before a
well-formed main. -/
theorem c4_witness :
    parseAndExecute 99 (tokenize c4Prog) initState =
      .ok () { initState with tokens := tokenize c4Prog, currentToken := 0,
                              errOut := initState.errOut ++ [outsideMsg 1] } :=
  c4_outside_main_rejected 99 (tokenize c4Prog) initState 5
    ⟨.IDENTIFIER, "crym", 1, 0⟩ (by decide) (by decide) (by decide)

/-- C5 (confirmed): each of the four ordering comparisons parses both
operand texts with std::stod and compares the parsed values, and throws
(aborting the run) exactly when either operand is not numeric text; the
final conjuncts show a run aborting abnormally, with no output produced,
at such a comparison. -/
theorem c5_ordering_comparisons :
    (∀ l r : String, evaluateComparison l "<" r =
      match stod? l, stod? r with
      | some a, some b => Except.ok (decLt a b)
      | _, _ => Except.error RError.stodErr) ∧
    (∀ l r : String, evaluateComparison l ">" r =
      match stod? l, stod? r with
      | some a, some b => Except.ok (decGt a b)
      | _, _ => Except.error RError.stodErr) ∧
    (∀ l r : String, evaluateComparison l "<=" r =
      match stod? l, stod? r with
      | some a, some b => Except.ok (decLe a b)
      | _, _ => Except.error RError.stodErr) ∧
    (∀ l r : String, evaluateComparison l ">=" r =
      match stod? l, stod? r with
      | some a, some b => Except.ok (decGe a b)
      | _, _ => Except.error RError.stodErr) ∧
    errCodeOf (runFileContents 99 c5BadProg) = some RError.stodErr ∧
    outOf (runFileContents 99 c5BadProg) = [] ∧
    exitsWithZero (runFileContents 99 c5BadProg) = false :=
  ⟨fun l r => rfl, fun l r => rfl, fun l r => rfl, fun l r => rfl,
   by decide, by decide, by decide⟩

/-- Witness for C5: a concrete non-numeric operand throws. -/
theorem c5_witness :
    evaluateComparison "oops" "<" "1" = Except.error RError.stodErr :=
  (c5_ordering_comparisons.1 "oops" "1").trans rfl

/-- C6 (confirmed): the == and != comparisons compare the operand texts
verbatim, with no numeric normalization; "1.0" and "1" are unequal under
==, and the section-8 test program prints exactly neq. -/
theorem c6_verbatim_equality :
    (∀ l r : String, evaluateComparison l "==" r = Except.ok (l == r)) ∧
    (∀ l r : String, evaluateComparison l "!=" r = Except.ok (l != r)) ∧
    evaluateComparison "1.0" "==" "1" = Except.ok false ∧
    outOf (runFileContents 99 c6Prog) = ["neq"] ∧
    errCodeOf (runFileContents 99 c6Prog) = none :=
  ⟨fun l r => rfl, fun l r => rfl, rfl, by decide, by decide⟩

/-- Witness for C6: verbatim comparison of two concrete texts. -/
theorem c6_witness : evaluateComparison "abc" "==" "abc" = Except.ok true :=
  (c6_verbatim_equality.1 "abc" "abc").trans rfl

/-- C10 (confirmed): calling a name that is neither an intrinsic nor a
declared function is a silent no-op: executeFunction returns normally
with the state — tables, output and all — unchanged; concretely, a run
containing such a call continues past it without output or error. -/
theorem c10_unknown_call_silent :
    (∀ (funcName : String) (args : List String) (s : InterpState),
        funcName ≠ "crym" → funcName ≠ "inp" → funcName ≠ "Sleep" →
        lookupAssoc s.functions funcName = none →
        executeFunction funcName args s = .ok () s) ∧
    outOf (runFileContents 99 c10Prog) = ["after"] ∧
    errCodeOf (runFileContents 99 c10Prog) = none := by
  refine ⟨?_, by decide, by decide⟩
  intro funcName args s h1 h2 h3 h4
  unfold executeFunction
  rw [if_neg h1, if_neg h2, if_neg h3, h4]

/-- Witness for C10: the concrete undeclared call `foo(1)` is a no-op. -/
theorem c10_witness : executeFunction "foo" ["1"] initState = .ok () initState :=
  c10_unknown_call_silent.1 "foo" ["1"] initState (by decide) (by decide)
    (by decide) (by decide)


/-- C2 counterexample: a fatal error (no main function) prints its
diagnostic to the error stream, yet the process exits with status 0 —
the claimed "non-zero exit code for every fatal error" is false. -/
theorem c2_counterexample_zero_exit :
    cliErrOut (crimsonMain 99 ["prog.crm"] fun _ => some c2NoMainProg) = [noMainMsg] ∧
    cliExitCode (crimsonMain 99 ["prog.crm"] fun _ => some c2NoMainProg) = some 0 :=
  ⟨rfl, rfl⟩

/-- C2 (corrected): every fatal error prints a human-readable message,
but only the numeric-parse errors terminate with a non-zero status: the
three structural errors (missing main, unterminated main, intrinsic
outside main) print to the error stream and return normally, so the
process exits with status 0; a non-numeric ordering-comparison operand or
Sleep argument throws an uncaught exception, terminating abnormally. -/
theorem c2_amended_error_reporting :
    (∀ (fuel : Nat) (toks : List Token) (s : InterpState),
        findMain toks = none →
        parseAndExecute fuel toks s =
          .ok () { s with tokens := toks, currentToken := 0,
                          errOut := s.errOut ++ [noMainMsg] }) ∧
    (∀ (fuel : Nat) (toks : List Token) (s : InterpState) (i : Nat),
        findMain toks = some i → findMainEnd toks i = 0 →
        parseAndExecute fuel toks s =
          .ok () { s with tokens := toks, currentToken := 0,
                          errOut := s.errOut ++ [notClosedMsg] }) ∧
    (∀ (fuel : Nat) (toks : List Token) (s : InterpState) (i : Nat) (t : Token),
        findMain toks = some i → findMainEnd toks i ≠ 0 →
        findOutsideIntrinsic toks i (findMainEnd toks i) = some t →
        parseAndExecute fuel toks s =
          .ok () { s with tokens := toks, currentToken := 0,
                          errOut := s.errOut ++ [outsideMsg t.line] }) ∧
    (∀ s : InterpState, exitsWithZero (RunRes.ok () s) = true) ∧
    (∀ (e : RError) (s : InterpState), exitsWithZero (RunRes.err e s) = false) ∧
    (∀ l r : String, stod? l = none ∨ stod? r = none →
        evaluateComparison l "<" r = Except.error RError.stodErr) ∧
    (∀ (a : String) (rest : List String) (s : InterpState), stoi? a = none →
        executeFunction "Sleep" (a :: rest) s = RunRes.err RError.stoiErr s) ∧
    errOf (runFileContents 99 c2UnclosedProg) = [notClosedMsg] ∧
    exitsWithZero (runFileContents 99 c2UnclosedProg) = true ∧
    errCodeOf (runFileContents 99 c2CmpProg) = some RError.stodErr ∧
    errCodeOf (runFileContents 99 c2SleepProg) = some RError.stoiErr := by
  refine ⟨?_, ?_, ?_, fun s => rfl, fun e s => rfl, ?_, ?_,
    by decide, by decide, by decide, by decide⟩
  · intro fuel toks s h1
    unfold parseAndExecute
    rw [h1]
  · intro fuel toks s i h1 h2
    unfold parseAndExecute
    rw [h1]
    dsimp only
    rw [if_pos h2]
  · intro fuel toks s i t h1 h2 h3
    unfold parseAndExecute
    rw [h1]
    dsimp only
    rw [if_neg h2, h3]
  · intro l r h
    have heq : evaluateComparison l "<" r =
        match stod? l, stod? r with
        | some a, some b => Except.ok (decLt a b)
        | _, _ => Except.error RError.stodErr := rfl
    rw [heq]
    cases hl : stod? l <;> cases hr : stod? r <;> simp_all
  · intro a rest s h
    simp [executeFunction, h]

/-- Witness for C2: a concrete token list with no main function. -/
theorem c2_witness :
    parseAndExecute 99 (tokenize c2NoMainProg) initState =
      .ok () { initState with tokens := tokenize c2NoMainProg, currentToken := 0,
                              errOut := initState.errOut ++ [noMainMsg] } :=
  c2_amended_error_reporting.1 99 (tokenize c2NoMainProg) initState (by decide)


/-- C7 counterexample: at a state whose current token is an operator —
in bounds and not the end-of-input token — parseExpression returns empty
text and advances the cursor by zero, refuting "it advances by exactly
one token, or by zero only when the cursor is at end-of-input". -/
theorem c7_counterexample_no_consume :
    parseExpression s7 = ("", s7) ∧
    s7.currentToken < s7.tokens.length ∧
    (curTok s7).type = TokenType.OPERATOR := by
  refine ⟨?_, by decide, by decide⟩
  rfl

/-- C7 (corrected): parseExpression is total and returns, in priority
order, the string-literal text, the number-literal text, the resolved
variable text (or the identifier itself when unbound), or the keyword
literals true/false, consuming exactly one token in those cases; for
every other token kind — not only at end-of-input — it returns empty
text and consumes nothing.  The final conjunct: every invocation either
advances the cursor by exactly one or leaves the state unchanged. -/
theorem c7_amended_parseExpression :
    (∀ s : InterpState,
      (s.tokens.length ≤ s.currentToken → parseExpression s = ("", s)) ∧
      (s.currentToken < s.tokens.length →
        (((curTok s).type = TokenType.STRING ∨ (curTok s).type = TokenType.NUMBER) →
          parseExpression s = ((curTok s).value, advance s)) ∧
        ((curTok s).type = TokenType.IDENTIFIER →
          parseExpression s = (resolveVar s (curTok s).value, advance s)) ∧
        ((curTok s).type = TokenType.KEYWORD ∧
            ((curTok s).value = "true" ∨ (curTok s).value = "false") →
          parseExpression s = ((curTok s).value, advance s)) ∧
        (¬(curTok s).type = TokenType.STRING → ¬(curTok s).type = TokenType.NUMBER →
          ¬(curTok s).type = TokenType.IDENTIFIER →
          ¬((curTok s).type = TokenType.KEYWORD ∧
            ((curTok s).value = "true" ∨ (curTok s).value = "false")) →
          parseExpression s = ("", s)))) ∧
    (∀ s : InterpState, (parseExpression s).2.currentToken = s.currentToken + 1 ∨
      (parseExpression s).2 = s) := by
  constructor
  · intro s
    constructor
    · intro h
      unfold parseExpression
      rw [if_pos h]
    · intro hlt
      have hnle : ¬ s.tokens.length ≤ s.currentToken := not_le.mpr hlt
      refine ⟨?_, ?_, ?_, ?_⟩
      · rintro (h | h) <;> simp [parseExpression, hnle, h]
      · intro h
        simp [parseExpression, hnle, h]
      · intro h
        simp [parseExpression, hnle, h.1, h.2]
      · intro h1 h2 h3 h4
        simp [parseExpression, hnle, h1, h2, h3, h4]
  · intro s
    unfold parseExpression
    dsimp only
    split_ifs <;> simp [advance]

/-- Witness for C7 at a concrete state: a number token is consumed. -/
theorem c7_witness :
    parseExpression { initState with tokens := [⟨.NUMBER, "7", 1, 0⟩] } =
      ("7", advance { initState with tokens := [⟨.NUMBER, "7", 1, 0⟩] }) :=
  ((c7_amended_parseExpression.1
      { initState with tokens := [⟨.NUMBER, "7", 1, 0⟩] }).2 (by decide)).1
    (Or.inr (by decide))


/-- C1 counterexample: in `if (1 < 2) { crym("A"); } else if (oops < 1)
{ crym("B"); }` the first branch executes (A is printed), yet the
else-if condition is still evaluated afterwards: its non-numeric operand
makes std::stod throw and the run aborts.  Under the claim — the else-if
condition evaluated only when no prior branch has executed, later
branches only skipping — this program would print A and finish normally. -/
theorem c1_counterexample_later_condition_evaluated :
    outOf (runFileContents 222 c1BadProg) = ["A"] ∧
    errCodeOf (runFileContents 222 c1BadProg) = some RError.stodErr ∧
    exitsWithZero (runFileContents 222 c1BadProg) = false := by
  refine ⟨by decide, rfl, rfl⟩

/-- C1 (corrected): exactly the first branch whose condition is true has
its block executed, an unconditional else executes exactly when no prior
branch executed and ends the chain, and a chain with no true condition
and no else executes nothing and raises no error; but a later else-if
condition is always parsed AND evaluated, even after a branch has
executed — only the block execution is gated.  Conjunct 1: once a branch
has executed, the remainder of the chain changes nothing but the cursor
(no output, no table changes), whether it completes or throws while
evaluating a later condition. -/
theorem c1_amended_if_chain :
    (∀ (fuel : Nat) (s : InterpState),
        agreesExceptCursor s (stateOf (elseChain fuel true s))) ∧
    outOf (runFileContents 222 chainProg1) = ["B"] ∧
    errCodeOf (runFileContents 222 chainProg1) = none ∧
    outOf (runFileContents 222 chainProg2) = ["done"] ∧
    errCodeOf (runFileContents 222 chainProg2) = none ∧
    outOf (runFileContents 222 chainProg3) = ["C"] ∧
    errCodeOf (runFileContents 222 chainProg3) = none :=
  ⟨aec_elseChain_true, by decide, rfl, by decide, rfl, by decide, rfl⟩

/-- Witness for C1: the general skip-only conjunct at a concrete state. -/
theorem c1_witness :
    agreesExceptCursor { initState with tokens := tokenize chainProg1 }
      (stateOf (elseChain 44 true { initState with tokens := tokenize chainProg1 })) :=
  c1_amended_if_chain.1 44 { initState with tokens := tokenize chainProg1 }

/-- C3 (code_bug): the scanner turns the whole directive line into one
Keyword token, so its text equals "#include" only for a bare directive;
the dispatch in parseAndExecute compares for equality with "#include"
and therefore never fires, and parseInclude additionally requires a `<`
DELIMITER although `<` is scanned as an OPERATOR.  Consequently the
inclusion notice is never printed: the program with `#include <io>`
inside main outputs only the crym line, and the directive has no effect
on variable state — contradicting the claimed "Including library: io"
notice. -/
theorem c3_include_notice_never_printed :
    tokenize "#include <io>" =
      [⟨.KEYWORD, "#include <io>", 1, 0⟩, ⟨.END_OF_FILE, "", 2, 0⟩] ∧
    outOf (runFileContents 222 c3Prog) = ["x"] ∧
    errCodeOf (runFileContents 222 c3Prog) = none ∧
    (stateOf (runFileContents 222 c3Prog)).vars = [] := by
  refine ⟨by decide, by decide, rfl, by decide⟩

/-- C8 counterexample: parsing the declaration `void f ( ) { crym (
"hello" ) ; }` (11 tokens, the body starting with the crym identifier at
index 5) consumes all 11 declaration tokens, yet the stored
function-table entry for f carries the empty body — the body tokens are
not captured into the entry. -/
theorem c8_counterexample_body_not_stored :
    lookupAssoc (parseFunctionDeclaration 50 s8).functions "f" =
      some ⟨DataType.VOID_TYPE, [], []⟩ ∧
    (parseFunctionDeclaration 50 s8).currentToken = 11 ∧
    s8.tokens.length = 12 ∧
    (s8.tokens.getD 5 dummyTok).value = "crym" := by
  refine ⟨by decide, by decide, by decide, by decide⟩

/-- C8 (corrected): a declaration is parsed past (parameters and body
consumed) but the collected body tokens are discarded — every entry the
declaration parser stores has an empty body, and the parser changes no
variable state and writes no output; invoking a declared function by name
only appends the diagnostic marker to the output, never executing any
body or binding parameters; the concrete run declares f with a printing
body and calls it, and the only output is the marker. -/
theorem c8_amended_declared_functions :
    (∀ (fuel : Nat) (s : InterpState) (n : String) (F : Function),
        lookupAssoc (parseFunctionDeclaration fuel s).functions n = some F →
        lookupAssoc s.functions n = some F ∨ F.body = []) ∧
    (∀ (fuel : Nat) (s : InterpState),
        (parseFunctionDeclaration fuel s).vars = s.vars ∧
        (parseFunctionDeclaration fuel s).out = s.out) ∧
    (∀ (funcName : String) (args : List String) (s : InterpState) (F : Function),
        lookupAssoc s.functions funcName = some F →
        funcName ≠ "crym" → funcName ≠ "inp" → funcName ≠ "Sleep" →
        executeFunction funcName args s =
          .ok () { s with out := s.out ++ ["Executing function: " ++ funcName] }) ∧
    outOf (runFileContents 222 c8Prog) = ["Executing function: f"] ∧
    errCodeOf (runFileContents 222 c8Prog) = none := by
  refine ⟨?_, ?_, ?_, by decide, rfl⟩
  · intro fuel s n F hlook
    obtain ⟨-, -, hfn⟩ := parseFunctionDeclaration_spec fuel s
    rcases hfn with h | ⟨nm, ps, h⟩
    · rw [h] at hlook
      exact Or.inl hlook
    · rw [h, lookupAssoc_insertAssoc] at hlook
      by_cases hn : nm = n
      · rw [if_pos hn] at hlook
        obtain rfl : (⟨.VOID_TYPE, ps, []⟩ : Function) = F := Option.some.inj hlook
        exact Or.inr rfl
      · rw [if_neg hn] at hlook
        exact Or.inl hlook
  · intro fuel s
    obtain ⟨h1, h2, -⟩ := parseFunctionDeclaration_spec fuel s
    exact ⟨h1, h2⟩
  · intro funcName args s F hlook h1 h2 h3
    unfold executeFunction
    rw [if_neg h1, if_neg h2, if_neg h3, hlook]

/-- Witness for C8: the marker-only behavior at a concrete call. -/
theorem c8_witness :
    executeFunction "f" []
      { initState with functions := [("f", ⟨DataType.VOID_TYPE, [], []⟩)] } =
      .ok () { { initState with functions := [("f", ⟨DataType.VOID_TYPE, [], []⟩)] }
        with out := ({ initState with
          functions := [("f", ⟨DataType.VOID_TYPE, [], []⟩)] } : InterpState).out ++
            ["Executing function: " ++ "f"] } :=
  c8_amended_declared_functions.2.2.1 "f" []
    { initState with functions := [("f", ⟨DataType.VOID_TYPE, [], []⟩)] }
    ⟨DataType.VOID_TYPE, [], []⟩ (by decide) (by decide) (by decide) (by decide)


theorem strData_append (a b : String) : (a ++ b).data = a.data ++ b.data := by
  cases a
  cases b
  rfl

theorem dropWhile_head_false (p : Char → Bool) (l : List Char) :
    l.dropWhile p = [] ∨
      ∃ x xs, l.dropWhile p = x :: xs ∧ p x = false := by
  induction l with
  | nil => exact Or.inl rfl
  | cons c cs ih =>
    by_cases h : p c
    · simpa [List.dropWhile_cons, h] using ih
    · exact Or.inr ⟨c, cs, by simp [List.dropWhile_cons, h], by simpa using h⟩

theorem extAfterLastDot_eq_crm (f : String) :
    extAfterLastDot f = "crm" ↔ (∃ t : String, f = t ++ ".crm") ∨ f = "crm" := by
  obtain ⟨fd⟩ := f
  constructor
  · intro h
    have hdata : afterLastDot fd = ['c', 'r', 'm'] := congrArg String.data h
    unfold afterLastDot at hdata
    have htake : fd.reverse.takeWhile (fun c => c != '.') = ['m', 'r', 'c'] := by
      have := congrArg List.reverse hdata
      simpa using this
    have hsplit := List.takeWhile_append_dropWhile
      (p := fun c => c != '.') (l := fd.reverse)
    rw [htake] at hsplit
    rcases dropWhile_head_false (fun c => c != '.') fd.reverse with hd | ⟨x, xs, hd, hpx⟩
    · rw [hd] at hsplit
      right
      have hrev : fd.reverse = ['m', 'r', 'c'] := by simpa using hsplit.symm
      have hfd : fd = ['c', 'r', 'm'] := by
        have := congrArg List.reverse hrev
        simpa using this
      simp [hfd]
    · have hx : x = '.' := by simpa using hpx
      subst hx
      rw [hd] at hsplit
      left
      refine ⟨⟨xs.reverse⟩, ?_⟩
      have hfd : fd = ('m' :: 'r' :: 'c' :: '.' :: xs).reverse := by
        have := congrArg List.reverse hsplit
        simpa using this.symm
      have hlist : ('m' :: 'r' :: 'c' :: '.' :: xs).reverse =
          (String.mk xs.reverse ++ ".crm").data := by
        rw [strData_append]
        simp
      show String.mk fd = _
      rw [hfd]
      exact (congrArg String.mk hlist).trans rfl
  · rintro (⟨t, ht⟩ | h)
    · rw [ht]
      show String.mk (afterLastDot (t ++ ".crm").data) = "crm"
      rw [strData_append]
      unfold afterLastDot
      have hrev : (t.data ++ (".crm" : String).data).reverse =
          'm' :: 'r' :: 'c' :: '.' :: t.data.reverse := by
        simp
      rw [hrev]
      have htk : ('m' :: 'r' :: 'c' :: '.' :: t.data.reverse).takeWhile
          (fun c => c != '.') = ['m', 'r', 'c'] := by
        simp [List.takeWhile_cons]
      rw [htk]
      rfl
    · rw [h]
      rfl


/-- C9 counterexample: the bare path "crm" does not end in ".crm" (it has
no decomposition `t ++ ".crm"`), yet the extension check accepts it —
`find_last_of(".")` returns npos, `npos + 1` wraps to 0, and the whole
filename compares equal to "crm" — so the program proceeds to file
loading (here: fails to open) instead of rejecting the path. -/
theorem c9_counterexample_bare_crm_accepted :
    (¬ ∃ t : String, ("crm" : String) = t ++ ".crm") ∧
    crimsonMain 1 ["crm"] (fun _ => none) = CliOutcome.cannotOpen "crm" := by
  constructor
  · rintro ⟨t, ht⟩
    have hlen := congrArg String.length ht
    rw [String.length_append] at hlen
    rw [show ("crm" : String).length = 3 from rfl,
        show (".crm" : String).length = 4 from rfl] at hlen
    omega
  · rfl

/-- C9 (corrected): a single path argument is rejected — with exit status
1, before the file system is even consulted (the outcome is independent
of `readSource`) — exactly when the text after its last dot (the whole
path when it has no dot) differs from "crm"; equivalently, the check
accepts precisely the paths ending in ".crm" together with the bare path
"crm" itself. -/
theorem c9_amended_extension_check :
    (∀ (fuel : Nat) (f : String) (readSource : String → Option String),
        extAfterLastDot f ≠ "crm" →
        crimsonMain fuel [f] readSource = CliOutcome.extensionError) ∧
    cliExitCode CliOutcome.extensionError = some 1 ∧
    (∀ f : String, extAfterLastDot f = "crm" ↔
      (∃ t : String, f = t ++ ".crm") ∨ f = "crm") := by
  refine ⟨?_, rfl, extAfterLastDot_eq_crm⟩
  intro fuel f readSource h
  unfold crimsonMain
  dsimp only
  rw [if_pos h]

/-- Witness for C9: a concrete path with the wrong extension is rejected
whatever the file system contains. -/
theorem c9_witness :
    crimsonMain 7 ["prog.txt"] (fun _ => some "void main ( ) \x7b \x7d") =
      CliOutcome.extensionError :=
  c9_amended_extension_check.1 7 "prog.txt"
    (fun _ => some "void main ( ) \x7b \x7d") (by decide)

end Crimson
